import Mathlib

/-!
Shallow embedding of the hue-lights repository (Connection Manager in
src/hue_ble.py, Command Router / daemon in src/daemon.py) and proofs
settling the specification claims about it.

Machine arithmetic: the Python source computes brightness conversions with
float expressions `int((percent / 100) * 253) + 1` and
`int(((raw - 1) / 253) * 100)`.  For every input these expressions can
receive (percent clamped into 1..100, raw a byte 0..255) the float results
coincide exactly with the corresponding exact rational computations, so the
embedding uses ℚ with the truncation-toward-zero semantics of Python `int()`.
-/

namespace HueLights

/-- Python `int(q)` applied to a rational: truncation toward zero. -/
def pytrunc (q : ℚ) : ℤ :=
  if q < 0 then -⌊-q⌋ else ⌊q⌋

/-- The clamp `percent = max(1, min(100, percent))` at src/hue_ble.py:182. -/
def clampPercent (percent : ℤ) : ℤ :=
  max 1 (min 100 percent)

/-- The wire value `int((percent / 100) * 253) + 1` at src/hue_ble.py:183,
computed by `set_brightness` from the already-clamped percent. -/
def wireValue (percent : ℤ) : ℤ :=
  pytrunc ((percent : ℚ) / 100 * 253) + 1

/-- The percent reported by `get_state` at src/hue_ble.py:202:
`max(1, min(100, int(((brightness_raw - 1) / 253) * 100)))`. -/
def percentFromWire (raw : ℤ) : ℤ :=
  max 1 (min 100 (pytrunc (((raw : ℚ) - 1) / 253 * 100)))

/-- Modelled from the spec: round-to-nearest on a rational (the `round(...)` of the spec; ties round up here — the inputs where the spec formulas are
compared against the code are not ties, so the tie convention is
immaterial). -/
def specRound (q : ℚ) : ℤ :=
  ⌊q + 1 / 2⌋

/-- Modelled from the spec: the wire mapping the spec prescribes,
`round((percent/100) * 253) + 1`. -/
def wireValueSpec (percent : ℤ) : ℤ :=
  specRound ((percent : ℚ) / 100 * 253) + 1

/-- Modelled from the spec: the read-back mapping the spec prescribes,
`clamp(round(((raw-1)/253) * 100), 1, 100)`. -/
def percentFromWireSpec (raw : ℤ) : ℤ :=
  max 1 (min 100 (specRound (((raw : ℚ) - 1) / 253 * 100)))

/-! ## Connection Manager (class HueBulbConnection, src/hue_ble.py)

Each operation is embedded as a pure function from the local connection
state and an environment describing the transport behaviour to its Python
return value, the state when control leaves the method, and the ordered
trace of externally visible steps the method performs (lock acquisition and
release, transport connect/disconnect, characteristic reads and writes,
pairing, config save).  `asyncio` interleaving is abstracted away: the
trace order is the program order of the method body. -/

/-- The two GATT characteristics the code touches
(POWER_CHAR_UUID, BRIGHTNESS_CHAR_UUID). -/
inductive CharId where
  | power
  | brightness
  deriving DecidableEq

/-- One externally visible step of an operation. -/
inductive Ev where
  | lockAcquire
  | lockRelease
  | transportConnect (address : String)
  | transportDisconnect
  | wireRead (c : CharId)
  | wireWrite (c : CharId) (value : ℤ)
  | pairRequest
  | saveAddress (address : String)
  | respWrite
  | respFlush
  | closeClient
  | serverClose
  | removePidFile
  deriving DecidableEq

/-- Steps that touch the Peripheral Link (wire reads/writes, the transport
connect/disconnect themselves, and the pairing handshake). -/
def Ev.isWire : Ev → Bool
  | .transportConnect _ => true
  | .transportDisconnect => true
  | .wireRead _ => true
  | .wireWrite _ _ => true
  | .pairRequest => true
  | _ => false

/-- Walk a trace tracking the lock-hold depth; every wire step must occur
while the lock is held. -/
def lockGuardedFrom : ℕ → List Ev → Bool
  | _, [] => true
  | d, .lockAcquire :: rest => lockGuardedFrom (d + 1) rest
  | d, .lockRelease :: rest => lockGuardedFrom (d - 1) rest
  | d, e :: rest => (!e.isWire || decide (0 < d)) && lockGuardedFrom d rest

/-- Every wire step of the trace happens between a lock acquisition and the
matching release. -/
def lockGuarded (tr : List Ev) : Bool :=
  lockGuardedFrom 0 tr

/-- Local state of a `HueBulbConnection`: the fixed address, whether
`_client` is set (`is not None`), whether the transport of that client reports
connected (`_client.is_connected`), the `_connected` flag, and the
`_disconnect_event` flag. -/
structure ConnState where
  address : String
  clientPresent : Bool
  clientConnected : Bool
  connectedFlag : Bool
  disconnectEventSet : Bool
  deriving DecidableEq

/-- Embeds `HueBulbConnection.__init__` (src/hue_ble.py:86): no client, flags
cleared. -/
def ConnState.fresh (address : String) : ConnState :=
  ⟨address, false, false, false, false⟩

/-- Property `is_connected` (src/hue_ble.py:93):
`self._connected and self._client is not None and self._client.is_connected`. -/
def ConnState.is_connected (c : ConnState) : Bool :=
  c.connectedFlag && c.clientPresent && c.clientConnected

/-- Outcome of `await self._client.connect()` plus the subsequent
`is_connected` check (src/hue_ble.py:109-112). -/
inductive ConnectOutcome where
  | timeout
  | raiseError
  | reportsDisconnected
  | ok
  deriving DecidableEq

/-- Outcome of the first privileged read
`await self._client.read_gatt_char(POWER_CHAR_UUID)` (src/hue_ble.py:119):
success, a BleakError carrying an authorization-required message, a
BleakError with any other message, or a non-BleakError exception. -/
inductive ReadOutcome where
  | ok
  | authError
  | otherBleakError
  | otherException
  deriving DecidableEq

/-- Behaviour of the underlying transport and the bulb during one
operation. -/
structure TransportEnv where
  connectOutcome : ConnectOutcome
  firstReadOutcome : ReadOutcome
  pairRaises : Bool
  disconnectRaises : Bool
  writeRaises : Bool
  readRaises : Bool
  powerDataEmpty : Bool
  powerByte : ℤ
  brightnessDataEmpty : Bool
  brightnessByte : ℤ
  deriving DecidableEq

/-- Result of a Python call that either returns a value or lets an
exception escape. -/
inductive PyResult (α : Type) where
  | ok (val : α)
  | raised
  deriving DecidableEq

/-- Embeds `HueBulbConnection.connect` (src/hue_ble.py:97-133).  No-op success if
already connected.  Otherwise a fresh client is stored in `_client` before
the transport connect, so `_client` remains set on every failure path.  On
transport success `_connected` is set and the disconnect event cleared,
then the first privileged read is attempted: an authorization BleakError
triggers one `pair()` call; any other BleakError is swallowed by the inner
handler (the `if` matches nothing and no re-raise happens); a non-BleakError
exception reaches the outer handler.  The outer handlers convert
`TimeoutError` and every other `Exception` to `False`, so the method never
raises.  On the paths that fall through to line 125-126 the address is
saved and `True` returned. -/
def ConnState.connect (c : ConnState) (env : TransportEnv) :
    Bool × ConnState × List Ev :=
  if c.is_connected then
    (true, c, [])
  else
    match env.connectOutcome with
    | .timeout =>
        (false, { c with clientPresent := true, clientConnected := false },
         [.transportConnect c.address])
    | .raiseError =>
        (false, { c with clientPresent := true, clientConnected := false },
         [.transportConnect c.address])
    | .reportsDisconnected =>
        (false, { c with clientPresent := true, clientConnected := false },
         [.transportConnect c.address])
    | .ok =>
        let c1 : ConnState :=
          { c with clientPresent := true, clientConnected := true,
                   connectedFlag := true, disconnectEventSet := false }
        match env.firstReadOutcome with
        | .ok =>
            (true, c1,
             [.transportConnect c.address, .wireRead .power, .saveAddress c.address])
        | .authError =>
            if env.pairRaises then
              (false, c1,
               [.transportConnect c.address, .wireRead .power, .pairRequest])
            else
              (true, c1,
               [.transportConnect c.address, .wireRead .power, .pairRequest,
                .saveAddress c.address])
        | .otherBleakError =>
            (true, c1,
             [.transportConnect c.address, .wireRead .power, .saveAddress c.address])
        | .otherException =>
            (false, c1,
             [.transportConnect c.address, .wireRead .power])

/-- Embeds `HueBulbConnection.disconnect` (src/hue_ble.py:140-146).  Sets the
disconnect event, calls the transport disconnect only when a client is
present and reports connected, then clears `_client` and `_connected`.
There is no try/finally: if the transport disconnect raises, the two
clearing assignments on lines 145-146 are never executed and the exception
escapes. -/
def ConnState.disconnect (c : ConnState) (env : TransportEnv) :
    PyResult Unit × ConnState × List Ev :=
  let c0 : ConnState := { c with disconnectEventSet := true }
  if c0.clientPresent && c0.clientConnected then
    if env.disconnectRaises then
      (.raised, c0, [.transportDisconnect])
    else
      (.ok (), { c0 with clientPresent := false, clientConnected := false,
                         connectedFlag := false },
       [.transportDisconnect])
  else
    (.ok (), { c0 with clientPresent := false, clientConnected := false,
                       connectedFlag := false }, [])

/-- Embeds `HueBulbConnection.turn_on` (src/hue_ble.py:157-166): not-connected
fails fast; otherwise the power write runs under the lock and a BleakError
is converted to `False`. -/
def ConnState.turn_on (c : ConnState) (env : TransportEnv) :
    Bool × List Ev :=
  if !c.is_connected then
    (false, [])
  else
    (!env.writeRaises, [.lockAcquire, .wireWrite .power 1, .lockRelease])

/-- Embeds `HueBulbConnection.turn_off` (src/hue_ble.py:168-177). -/
def ConnState.turn_off (c : ConnState) (env : TransportEnv) :
    Bool × List Ev :=
  if !c.is_connected then
    (false, [])
  else
    (!env.writeRaises, [.lockAcquire, .wireWrite .power 0, .lockRelease])

/-- Embeds `HueBulbConnection.set_brightness` (src/hue_ble.py:179-190): clamps the
percent into 1..100, derives the wire byte, and writes it under the lock. -/
def ConnState.set_brightness (c : ConnState) (env : TransportEnv)
    (percent : ℤ) : Bool × List Ev :=
  if !c.is_connected then
    (false, [])
  else
    (!env.writeRaises,
     [.lockAcquire, .wireWrite .brightness (wireValue (clampPercent percent)),
      .lockRelease])

/-- The bulb state dictionary returned by `get_state`. -/
structure BulbState where
  power : String
  brightness : ℤ
  deriving DecidableEq

def powerOnStr : String := "on"
def powerOffStr : String := "off"

/-- Embeds `HueBulbConnection.get_state` (src/hue_ble.py:192-207): under the lock,
reads the power and brightness characteristics, decodes power from the first
byte, substitutes raw 1 for empty brightness data, converts via
`percentFromWire`, and converts a BleakError during the reads to `None`
(`env.readRaises` makes the first read raise; the `async with` still
releases the lock). -/
def ConnState.get_state (c : ConnState) (env : TransportEnv) :
    Option BulbState × List Ev :=
  if !c.is_connected then
    (none, [])
  else if env.readRaises then
    (none, [.lockAcquire, .wireRead .power, .lockRelease])
  else
    let power_on : Bool := !env.powerDataEmpty && env.powerByte == 1
    let braw : ℤ := if env.brightnessDataEmpty then 1 else env.brightnessByte
    (some ⟨if power_on then powerOnStr else powerOffStr, percentFromWire braw⟩,
     [.lockAcquire, .wireRead .power, .wireRead .brightness, .lockRelease])

/-- Embeds `_on_disconnect` (src/hue_ble.py:135-138): the unsolicited disconnect
callback clears `_connected` and sets the event. -/
def ConnState.on_disconnect (c : ConnState) : ConnState :=
  { c with connectedFlag := false, disconnectEventSet := true }

/-! ## Command Router / daemon (class HueDaemon, src/daemon.py)

`handle_client` is embedded as a pure function from the daemon state, an
environment (transport behaviour plus the last address of the config store), and
the decoded request to the response it sends, the daemon state when the
handler finishes, and the trace of its steps.  `respWrite`/`respFlush`
stand for `writer.write`/`writer.drain` of the response line, `closeClient`
for `writer.close()` (including the one in the `finally` block). -/

def cmdPing : String := "ping"
def cmdConnect : String := "connect"
def cmdDisconnect : String := "disconnect"
def cmdOn : String := "on"
def cmdOff : String := "off"
def cmdBrightness : String := "brightness"
def cmdStatus : String := "status"
def cmdShutdown : String := "shutdown"

def errUnknownCommand : String := "Unknown command"
def errNoAddress : String := "No address specified"
def msgAlreadyConnected : String := "Already connected"
def msgConnectedTo : String := "Connected to "
def errConnectionFailed : String := "Connection failed"
def errNotConnected : String := "Not connected"
def errFailedToReadState : String := "Failed to read state"
def msgShuttingDown : String := "Shutting down"

/-- Placeholder for the Python `str(e)` in the generic exception handler at
src/daemon.py:116-118 (the exact text depends on the exception). -/
def errExceptionText : String := "internal error"

/-- A JSON value as far as the `connected` field of `ping` is concerned:
the Python expression `self.connection and self.connection.is_connected` is `None`
(serialized `null`) when `self.connection` is `None`, a bool otherwise. -/
inductive JVal where
  | null
  | bool (b : Bool)
  deriving DecidableEq

/-- The response dictionary: `ok` plus the optional fields the handlers
populate (`none` means the key is absent). -/
structure Response where
  ok : Bool
  connected : Option JVal := none
  error : Option String := none
  message : Option String := none
  power : Option String := none
  brightness : Option ℤ := none
  deriving DecidableEq

/-- A decoded request: `request.get("cmd")`, `request.get("address")`,
and the raw `level` field (absent or an integer). -/
structure Request where
  cmd : Option String
  address : Option String
  level : Option ℤ
  deriving DecidableEq

/-- Daemon state: `self.connection` (src/daemon.py:23). -/
structure DaemonState where
  connection : Option ConnState
  deriving DecidableEq

/-- Environment of one request: the transport behaviour and
`load_config().get("last_address")`. -/
structure DaemonEnv where
  transport : TransportEnv
  lastAddress : Option String
  deriving DecidableEq

/-- Python truthiness for an optional string (`if not address:` treats both
`None` and the empty string as falsy). -/
def pyTruthyStr : Option String → Option String
  | some s => if s = "" then none else some s
  | none => none

/-- Embeds `HueDaemon.stop` (src/daemon.py:157-166): disconnect if a connection
object exists, close the server, remove the PID file.  A raise from the
transport disconnect escapes `stop` before the server is closed. -/
def daemonStop (st : DaemonState) (env : DaemonEnv) :
    PyResult Unit × DaemonState × List Ev :=
  match st.connection with
  | some c =>
      match c.disconnect env.transport with
      | (.raised, c2, tr) => (.raised, ⟨some c2⟩, tr)
      | (.ok _, c2, tr) =>
          (.ok (), ⟨some c2⟩, tr ++ [.serverClose, .removePidFile])
  | none => (.ok (), st, [.serverClose, .removePidFile])

/-- The trailing `writer.write` / `writer.drain` / `finally: writer.close()`
steps of a normal (non-shutdown) round trip (src/daemon.py:111-127). -/
def respondEvs : List Ev :=
  [.respWrite, .respFlush, .closeClient]

/-- The `{ok:false, error:"Not connected"}` reply of the `on`, `off`,
`brightness` and `status` branches. -/
def notConnectedResponse : Response :=
  { ok := false, error := some errNotConnected }

/-- The tail of the `connect` branch (src/daemon.py:56-63): a fresh
`HueBulbConnection(address)` stored in `self.connection`, then `connect()`. -/
def connectFresh (env : DaemonEnv) (addr : String) (tr0 : List Ev) :
    Response × DaemonState × List Ev :=
  let r := (ConnState.fresh addr).connect env.transport
  let resp : Response :=
    if r.1 then { ok := true, message := some (msgConnectedTo ++ addr) }
    else { ok := false, error := some errConnectionFailed }
  (resp, ⟨some r.2.1⟩, tr0 ++ r.2.2 ++ respondEvs)

/-- Embeds `HueDaemon.handle_client` (src/daemon.py:26-127), after a request line
was received and decoded.  Dispatch is by string comparison on `cmd`; the
default response is `Unknown command`.  A raise escaping a branch (only the
transport disconnect can raise in this model) is converted by the generic
handler to `{ok:false, error:str(e)}`.  `shutdown` writes and flushes its
response and closes the writer before `stop()` runs; the final
`closeClient` is the close performed by the `finally` block. -/
def handleClient (st : DaemonState) (env : DaemonEnv) (req : Request) :
    Response × DaemonState × List Ev :=
  if req.cmd = some cmdPing then
    let conn : Option JVal :=
      match st.connection with
      | none => some JVal.null
      | some c => some (JVal.bool c.is_connected)
    ({ ok := true, connected := conn }, st, respondEvs)
  else if req.cmd = some cmdConnect then
    let addr1 : Option String :=
      match pyTruthyStr req.address with
      | some a => some a
      | none => pyTruthyStr env.lastAddress
    match addr1 with
    | none => ({ ok := false, error := some errNoAddress }, st, respondEvs)
    | some addr =>
        match st.connection with
        | some c =>
            if c.is_connected then
              if c.address = addr then
                ({ ok := true, message := some msgAlreadyConnected }, st, respondEvs)
              else
                match c.disconnect env.transport with
                | (.raised, c2, tr) =>
                    ({ ok := false, error := some errExceptionText }, ⟨some c2⟩,
                     tr ++ respondEvs)
                | (.ok _, _, tr) => connectFresh env addr tr
            else connectFresh env addr []
        | none => connectFresh env addr []
  else if req.cmd = some cmdDisconnect then
    match st.connection with
    | some c =>
        match c.disconnect env.transport with
        | (.raised, c2, tr) =>
            ({ ok := false, error := some errExceptionText }, ⟨some c2⟩,
             tr ++ respondEvs)
        | (.ok _, _, tr) => ({ ok := true }, ⟨none⟩, tr ++ respondEvs)
    | none => ({ ok := true }, st, respondEvs)
  else if req.cmd = some cmdOn then
    match st.connection with
    | some c =>
        if c.is_connected then
          let r := c.turn_on env.transport
          ({ ok := r.1 }, st, r.2 ++ respondEvs)
        else (notConnectedResponse, st, respondEvs)
    | none => (notConnectedResponse, st, respondEvs)
  else if req.cmd = some cmdOff then
    match st.connection with
    | some c =>
        if c.is_connected then
          let r := c.turn_off env.transport
          ({ ok := r.1 }, st, r.2 ++ respondEvs)
        else (notConnectedResponse, st, respondEvs)
    | none => (notConnectedResponse, st, respondEvs)
  else if req.cmd = some cmdBrightness then
    let level : ℤ := req.level.getD 50
    match st.connection with
    | some c =>
        if c.is_connected then
          let r := c.set_brightness env.transport level
          ({ ok := r.1 }, st, r.2 ++ respondEvs)
        else (notConnectedResponse, st, respondEvs)
    | none => (notConnectedResponse, st, respondEvs)
  else if req.cmd = some cmdStatus then
    match st.connection with
    | some c =>
        if c.is_connected then
          let r := c.get_state env.transport
          match r.1 with
          | some s =>
              ({ ok := true, power := some s.power,
                 brightness := some s.brightness }, st, r.2 ++ respondEvs)
          | none =>
              ({ ok := false, error := some errFailedToReadState }, st,
               r.2 ++ respondEvs)
        else (notConnectedResponse, st, respondEvs)
    | none => (notConnectedResponse, st, respondEvs)
  else if req.cmd = some cmdShutdown then
    let stopR := daemonStop st env
    ({ ok := true, message := some msgShuttingDown }, stopR.2.1,
     Ev.respWrite :: Ev.respFlush :: Ev.closeClient :: (stopR.2.2 ++ [Ev.closeClient]))
  else
    ({ ok := false, error := some errUnknownCommand }, st, respondEvs)

/-- The claim as stated: both conversion directions agree with the
round-to-nearest formulas on their whole input ranges. -/
def claimC5 : Prop :=
  (∀ p : ℤ, 1 ≤ p → p ≤ 100 → wireValue p = wireValueSpec p) ∧
  (∀ raw : ℤ, 0 ≤ raw → raw ≤ 255 → percentFromWire raw = percentFromWireSpec raw)

/-! ## Concrete sample values used by counterexamples and witnesses -/

def addrSample : String := "AA:BB:CC:DD:EE:FF"

/-- A transport that cooperates fully. -/
def envHappy : TransportEnv :=
  { connectOutcome := .ok, firstReadOutcome := .ok, pairRaises := false,
    disconnectRaises := false, writeRaises := false, readRaises := false,
    powerDataEmpty := false, powerByte := 1,
    brightnessDataEmpty := false, brightnessByte := 254 }

/-- A transport whose connect succeeds but whose first privileged read
fails with a non-authorization BleakError. -/
def envStrayReadError : TransportEnv :=
  { envHappy with firstReadOutcome := .otherBleakError }

/-- A transport whose disconnect call raises. -/
def envDisconnectRaises : TransportEnv :=
  { envHappy with disconnectRaises := true }

/-- A connection whose link is fully up. -/
def connSample : ConnState :=
  { address := addrSample, clientPresent := true, clientConnected := true,
    connectedFlag := true, disconnectEventSet := false }

/-- The claim as stated: all six Connection Manager operations issue their
wire reads/writes only while holding the exclusive lock. -/
def claimC1 : Prop :=
  (∀ (c : ConnState) (env : TransportEnv), lockGuarded (c.turn_on env).2 = true) ∧
  (∀ (c : ConnState) (env : TransportEnv), lockGuarded (c.turn_off env).2 = true) ∧
  (∀ (c : ConnState) (env : TransportEnv) (p : ℤ),
    lockGuarded (c.set_brightness env p).2 = true) ∧
  (∀ (c : ConnState) (env : TransportEnv), lockGuarded (c.get_state env).2 = true) ∧
  (∀ (c : ConnState) (env : TransportEnv), lockGuarded (c.connect env).2.2 = true) ∧
  (∀ (c : ConnState) (env : TransportEnv), lockGuarded (c.disconnect env).2.2 = true)

/-- The claim as stated: disconnect is safe when no live client exists (no
transport call, no raise), idempotent (a second disconnect after a
successful one changes nothing and touches no wire), and always clears the
client reference and connected flag — even when the transport disconnect
raises. -/
def claimC7 : Prop :=
  (∀ (c : ConnState) (env : TransportEnv),
    (c.clientPresent && c.clientConnected) = false →
    (c.disconnect env).1 = PyResult.ok () ∧ (c.disconnect env).2.2 = []) ∧
  (∀ (c : ConnState) (env env2 : TransportEnv),
    (c.disconnect env).1 = PyResult.ok () →
    ((c.disconnect env).2.1.disconnect env2).2.1 = (c.disconnect env).2.1 ∧
    ((c.disconnect env).2.1.disconnect env2).2.2 = []) ∧
  (∀ (c : ConnState) (env : TransportEnv),
    (c.disconnect env).2.1.clientPresent = false ∧
    (c.disconnect env).2.1.connectedFlag = false)

/-- The claim as stated: starting from a not-connected state, `connect`
returns `false` whenever the transport fails — a timeout, an error or a
false `is_connected` report during establishment, any failure of the first
privileged read (a pairing retry that itself fails included).  The only
read failure not counted here is the authorization error whose pairing
retry succeeds, which the spec itself prescribes as a success path.  The
"never raises" half of the claim is structural in this embedding:
`ConnState.connect` is a total function into `Bool × ConnState × List Ev`
with no raised outcome, mirroring the `except TimeoutError` /
`except Exception` handlers that close src/hue_ble.py:97-133. -/
def claimC8 : Prop :=
  ∀ (c : ConnState) (env : TransportEnv), c.is_connected = false →
    (env.connectOutcome ≠ ConnectOutcome.ok ∨
      env.firstReadOutcome = ReadOutcome.otherBleakError ∨
      env.firstReadOutcome = ReadOutcome.otherException ∨
      (env.firstReadOutcome = ReadOutcome.authError ∧ env.pairRaises = true)) →
    (c.connect env).1 = false

/-- An environment with a friendly transport and no stored address. -/
def envDefault : DaemonEnv :=
  { transport := envHappy, lastAddress := none }

/-- The fresh daemon state (`HueDaemon.__init__`, src/daemon.py:22-24). -/
def daemonFresh : DaemonState :=
  { connection := none }

/-- The claim as stated: ping always answers `{ok:true, connected:b}` with
`b` a boolean, and on a fresh daemon the answer is exactly
`{ok:true, connected:false}`. -/
def claimC6 : Prop :=
  (∀ (st : DaemonState) (env : DaemonEnv) (a : Option String) (l : Option ℤ),
    ∃ b : Bool,
      (handleClient st env ⟨some cmdPing, a, l⟩).1.connected = some (JVal.bool b)) ∧
  (∀ (env : DaemonEnv) (a : Option String) (l : Option ℤ),
    (handleClient daemonFresh env ⟨some cmdPing, a, l⟩).1 =
      { ok := true, connected := some (JVal.bool false) })

/-- Does the trace contain any transport connect attempt? -/
def hasConnectAttempt : List Ev → Bool
  | [] => false
  | .transportConnect _ :: _ => true
  | _ :: rest => hasConnectAttempt rest

/-- The daemon considers itself not connected for the stateful commands
exactly when `self.connection and self.connection.is_connected` is falsy. -/
def stateNotConnected (st : DaemonState) : Bool :=
  match st.connection with
  | none => true
  | some c => !c.is_connected

/-- An environment that knows a last-used address. -/
def envKnownAddr : DaemonEnv :=
  { transport := envHappy, lastAddress := some addrSample }

/-- The claim as stated: when a stateful command arrives while not
connected and an identity is known (explicitly in the request or from the
config store), the router attempts a connect before anything else. -/
def claimC2 : Prop :=
  ∀ (st : DaemonState) (env : DaemonEnv) (req : Request),
    (req.cmd = some cmdOn ∨ req.cmd = some cmdOff ∨
      req.cmd = some cmdBrightness ∨ req.cmd = some cmdStatus) →
    stateNotConnected st = true →
    (pyTruthyStr req.address ≠ none ∨ pyTruthyStr env.lastAddress ≠ none) →
    hasConnectAttempt (handleClient st env req).2.2 = true

/-- Does the trace contain any wire write? -/
def hasWireWrite : List Ev → Bool
  | [] => false
  | .wireWrite _ _ :: _ => true
  | _ :: rest => hasWireWrite rest

/-- The claim as stated: a brightness level outside 1..100 is answered with
`{ok:false, ...}` and no wire write reaches the transport. -/
def claimC3 : Prop :=
  ∀ (st : DaemonState) (env : DaemonEnv) (a : Option String) (level : ℤ),
    (level < 1 ∨ 100 < level) →
    (handleClient st env ⟨some cmdBrightness, a, some level⟩).1.ok = false ∧
    hasWireWrite (handleClient st env ⟨some cmdBrightness, a, some level⟩).2.2 = false

/-- Teardown steps: disconnecting the link, closing the listening server,
removing the liveness marker. -/
def Ev.isTeardown : Ev → Bool
  | .transportDisconnect => true
  | .serverClose => true
  | .removePidFile => true
  | _ => false

/-- Scans the trace up to the first response flush: no teardown step may
occur before it. -/
def noTeardownBeforeFlush : List Ev → Bool
  | [] => true
  | .respFlush :: _ => true
  | e :: rest => ! e.isTeardown && noTeardownBeforeFlush rest

theorem pytrunc_of_nonneg {q : ℚ} (h : 0 ≤ q) : pytrunc q = ⌊q⌋ :=
  if_neg (not_lt.2 h)

theorem pytrunc_of_neg {q : ℚ} (h : q < 0) : pytrunc q = -⌊-q⌋ :=
  if_pos h

/-- The wire mapping, bridged from the rational computation to integer
division: for nonnegative percent it is `percent * 253 / 100 + 1`. -/
theorem wireValue_eq_div (p : ℤ) (hp : 0 ≤ p) :
    wireValue p = p * 253 / 100 + 1 := by
  have hq : ((p : ℚ) / 100 * 253) = ((p * 253 : ℤ) : ℚ) / ((100 : ℕ) : ℚ) := by
    push_cast
    ring
  have h0 : (0 : ℚ) ≤ (p : ℚ) / 100 * 253 := by
    have : (0 : ℚ) ≤ (p : ℚ) := by exact_mod_cast hp
    positivity
  unfold wireValue
  rw [pytrunc_of_nonneg h0, hq, Rat.floor_intCast_div_natCast]
  norm_num

/-- The read-back mapping, bridged to integer division: for raw ≥ 1 it is
`clamp((raw - 1) * 100 / 253, 1, 100)`. -/
theorem percentFromWire_eq_div (raw : ℤ) (h : 1 ≤ raw) :
    percentFromWire raw = max 1 (min 100 ((raw - 1) * 100 / 253)) := by
  have hq : (((raw : ℚ) - 1) / 253 * 100) =
      (((raw - 1) * 100 : ℤ) : ℚ) / ((253 : ℕ) : ℚ) := by
    push_cast
    ring
  have h0 : (0 : ℚ) ≤ ((raw : ℚ) - 1) / 253 * 100 := by
    have : (1 : ℚ) ≤ (raw : ℚ) := by exact_mod_cast h
    have h1 : (0 : ℚ) ≤ (raw : ℚ) - 1 := by linarith
    positivity
  unfold percentFromWire
  rw [pytrunc_of_nonneg h0, hq, Rat.floor_intCast_div_natCast]
  norm_num

/-- A raw byte of 0 (below the firmware floor) reads back as 1 percent.
Python `int()` truncates `((0 - 1) / 253) * 100` toward zero, to 0,
which the clamp then lifts to 1. -/
theorem percentFromWire_zero : percentFromWire 0 = 1 := by
  have hq : (((0 : ℤ) : ℚ) - 1) / 253 * 100 = -(((100 : ℤ) : ℚ) / ((253 : ℕ) : ℚ)) := by
    push_cast
    ring
  have hneg : ((((0 : ℤ) : ℚ)) - 1) / 253 * 100 < 0 := by
    rw [hq]
    norm_num
  unfold percentFromWire
  rw [pytrunc_of_neg hneg, hq, neg_neg, Rat.floor_intCast_div_natCast]
  norm_num

/-- The rounding wire mapping of the spec, bridged to integer division. -/
theorem wireValueSpec_eq_div (p : ℤ) :
    wireValueSpec p = (506 * p + 100) / 200 + 1 := by
  have hq : ((p : ℚ) / 100 * 253 + 1 / 2) =
      ((506 * p + 100 : ℤ) : ℚ) / ((200 : ℕ) : ℚ) := by
    push_cast
    ring
  unfold wireValueSpec specRound
  rw [hq, Rat.floor_intCast_div_natCast]
  norm_num

/-- The rounding read-back mapping of the spec, bridged to integer division. -/
theorem percentFromWireSpec_eq_div (raw : ℤ) :
    percentFromWireSpec raw = max 1 (min 100 ((200 * (raw - 1) + 253) / 506)) := by
  have hq : (((raw : ℚ) - 1) / 253 * 100 + 1 / 2) =
      ((200 * (raw - 1) + 253 : ℤ) : ℚ) / ((506 : ℕ) : ℚ) := by
    push_cast
    ring
  unfold percentFromWireSpec specRound
  rw [hq, Rat.floor_intCast_div_natCast]
  norm_num

example : wireValue 1 = 3 := by rw [wireValue_eq_div 1 (by decide)]; decide
example : wireValueSpec 1 = 4 := by rw [wireValueSpec_eq_div 1]; decide
example : percentFromWire 5 = 1 := by rw [percentFromWire_eq_div 5 (by decide)]; decide
example : percentFromWireSpec 5 = 2 := by rw [percentFromWireSpec_eq_div 5]; decide
example : wireValue 100 = 254 := by rw [wireValue_eq_div 100 (by decide)]; decide
example : percentFromWire 254 = 100 := by rw [percentFromWire_eq_div 254 (by decide)]; decide

/-! ## Claim C4: brightness round-trip -/

/-- The round-trip deviation bound, stated over the bridged integer-division
forms so the kernel can check all hundred cases. -/
theorem roundtrip_div_bound :
    ∀ p : ℕ, p ≤ 100 → 1 ≤ p →
      (max 1 (min 100 (((p : ℤ) * 253 / 100 + 1 - 1) * 100 / 253)) - (p : ℤ)).natAbs ≤ 1 := by
  decide

/-- C4: for every percent in 1..100, the percent-to-wire mapping of
`set_brightness` followed by the wire-to-percent mapping of `get_state`
lands within ±1 of the original percent, and is exact at 1 and at 100. -/
theorem c4_brightness_roundtrip :
    (∀ p : ℕ, p ≤ 100 → 1 ≤ p →
      (percentFromWire (wireValue (p : ℤ)) - (p : ℤ)).natAbs ≤ 1)
    ∧ percentFromWire (wireValue 1) = 1
    ∧ percentFromWire (wireValue 100) = 100 := by
  refine ⟨fun p hp h1 => ?_, ?_, ?_⟩
  · have h0 : (0 : ℤ) ≤ (p : ℤ) := Int.natCast_nonneg p
    have hdiv : (0 : ℤ) ≤ (p : ℤ) * 253 / 100 :=
      Int.ediv_nonneg (by positivity) (by norm_num)
    rw [wireValue_eq_div _ h0, percentFromWire_eq_div _ (by omega)]
    exact roundtrip_div_bound p hp h1
  · have h1 : wireValue 1 = 3 := by
      rw [wireValue_eq_div 1 (by norm_num)]
      decide
    rw [h1, percentFromWire_eq_div 3 (by norm_num)]
    decide
  · have h1 : wireValue 100 = 254 := by
      rw [wireValue_eq_div 100 (by norm_num)]
      decide
    rw [h1, percentFromWire_eq_div 254 (by norm_num)]
    decide

/-- Witness for C4 at percent 50. -/
theorem c4_brightness_roundtrip_witness :
    (percentFromWire (wireValue ((50 : ℕ) : ℤ)) - ((50 : ℕ) : ℤ)).natAbs ≤ 1 ∧
      percentFromWire (wireValue 1) = 1 :=
  ⟨c4_brightness_roundtrip.1 50 (by norm_num) (by norm_num),
   c4_brightness_roundtrip.2.1⟩

/-! ## Claim C5: the exact conversion formulas -/

/-- C5 fails on the code: at percent 1 the code writes wire value 3
(truncating 2.53) while the spec formula rounds to 4. -/
theorem c5_counterexample : ¬ claimC5 := by
  intro h
  have h1 := h.1 1 (by norm_num) (by norm_num)
  rw [wireValue_eq_div 1 (by norm_num), wireValueSpec_eq_div 1] at h1
  norm_num at h1

/-- C5 amended: both directions truncate rather than round — the wire value
is `(percent * 253) / 100 + 1` (floor) and the read-back percent is
`clamp((raw - 1) * 100 / 253, 1, 100)` (floor for raw ≥ 1; a raw byte of 0
also clamps up to 1). -/
theorem c5_truncating_maps :
    (∀ p : ℤ, 0 ≤ p → wireValue p = p * 253 / 100 + 1) ∧
    (∀ raw : ℤ, 1 ≤ raw →
      percentFromWire raw = max 1 (min 100 ((raw - 1) * 100 / 253))) ∧
    percentFromWire 0 = 1 :=
  ⟨wireValue_eq_div, percentFromWire_eq_div, percentFromWire_zero⟩

/-- Witness for the amended C5 at percent 37 and raw byte 94. -/
theorem c5_truncating_maps_witness :
    wireValue 37 = 37 * 253 / 100 + 1 ∧
      percentFromWire 94 = max 1 (min 100 ((94 - 1) * 100 / 253)) :=
  ⟨c5_truncating_maps.1 37 (by norm_num), c5_truncating_maps.2.1 94 (by norm_num)⟩

/-! ## Claim C1: the exclusive lock around wire operations -/

/-- C1 fails on the code: `connect` performs the transport connect and the
privileged characteristic read without touching `self._lock`. -/
theorem c1_counterexample : ¬ claimC1 := by
  intro h
  exact absurd (h.2.2.2.2.1 (ConnState.fresh addrSample) envHappy) (by decide)

/-- C1 amended: `turn_on`, `turn_off`, `set_brightness` and `get_state`
each hold the lock for the duration of their wire operations, but `connect`
and `disconnect` issue their wire operations with the lock never held. -/
theorem c1_lock_discipline :
    (∀ (c : ConnState) (env : TransportEnv), lockGuarded (c.turn_on env).2 = true) ∧
    (∀ (c : ConnState) (env : TransportEnv), lockGuarded (c.turn_off env).2 = true) ∧
    (∀ (c : ConnState) (env : TransportEnv) (p : ℤ),
      lockGuarded (c.set_brightness env p).2 = true) ∧
    (∀ (c : ConnState) (env : TransportEnv), lockGuarded (c.get_state env).2 = true) ∧
    (∀ (c : ConnState) (env : TransportEnv),
      c.is_connected = false → lockGuarded (c.connect env).2.2 = false) ∧
    (∀ (c : ConnState) (env : TransportEnv),
      c.clientPresent = true → c.clientConnected = true →
      lockGuarded (c.disconnect env).2.2 = false) := by
  refine ⟨?_, ?_, ?_, ?_, ?_, ?_⟩
  · intro c env
    cases hc : c.is_connected <;>
      simp [ConnState.turn_on, hc, lockGuarded, lockGuardedFrom, Ev.isWire]
  · intro c env
    cases hc : c.is_connected <;>
      simp [ConnState.turn_off, hc, lockGuarded, lockGuardedFrom, Ev.isWire]
  · intro c env p
    cases hc : c.is_connected <;>
      simp [ConnState.set_brightness, hc, lockGuarded, lockGuardedFrom, Ev.isWire]
  · intro c env
    cases hc : c.is_connected <;>
      cases hr : env.readRaises <;>
        simp [ConnState.get_state, hc, hr, lockGuarded, lockGuardedFrom, Ev.isWire]
  · intro c env hc
    cases hco : env.connectOutcome <;>
      cases hro : env.firstReadOutcome <;>
        cases hpr : env.pairRaises <;>
          simp [ConnState.connect, hc, hco, hro, hpr, lockGuarded, lockGuardedFrom,
                Ev.isWire]
  · intro c env hp hcc
    cases hd : env.disconnectRaises <;>
      simp [ConnState.disconnect, hp, hcc, hd, lockGuarded, lockGuardedFrom,
            Ev.isWire]

/-- Witness for the amended C1: the lock is held around the brightness
write of a live connection, and not held around the wire steps of a
`connect` from scratch or a `disconnect` of a live connection. -/
theorem c1_lock_discipline_witness :
    lockGuarded (connSample.set_brightness envHappy 50).2 = true ∧
    lockGuarded ((ConnState.fresh addrSample).connect envHappy).2.2 = false ∧
    lockGuarded (connSample.disconnect envHappy).2.2 = false :=
  ⟨c1_lock_discipline.2.2.1 connSample envHappy 50,
   c1_lock_discipline.2.2.2.2.1 (ConnState.fresh addrSample) envHappy (by decide),
   c1_lock_discipline.2.2.2.2.2 connSample envHappy (by decide) (by decide)⟩

/-! ## Claim C7: disconnect idempotence and state clearing -/

/-- C7 fails on the code: when the transport disconnect raises, the two
clearing assignments (src/hue_ble.py:145-146) are skipped, so the client
reference survives. -/
theorem c7_counterexample : ¬ claimC7 := by
  intro h
  exact absurd (h.2.2 connSample envDisconnectRaises).1 (by decide)

/-- C7 amended: disconnect is idempotent and safe when no live client
exists, and clears local state whenever the transport disconnect does not
raise; but when the transport disconnect raises, the exception escapes and
only the disconnect event is recorded — the client reference and connected
flag keep their old values. -/
theorem c7_disconnect_behaviour :
    (∀ (c : ConnState) (env : TransportEnv),
      (c.clientPresent && c.clientConnected) = false →
      (c.disconnect env).1 = PyResult.ok () ∧ (c.disconnect env).2.2 = []) ∧
    (∀ (c : ConnState) (env env2 : TransportEnv),
      (c.disconnect env).1 = PyResult.ok () →
      ((c.disconnect env).2.1.disconnect env2).2.1 = (c.disconnect env).2.1 ∧
      ((c.disconnect env).2.1.disconnect env2).2.2 = []) ∧
    (∀ (c : ConnState) (env : TransportEnv), env.disconnectRaises = false →
      (c.disconnect env).1 = PyResult.ok () ∧
      (c.disconnect env).2.1.clientPresent = false ∧
      (c.disconnect env).2.1.clientConnected = false ∧
      (c.disconnect env).2.1.connectedFlag = false) ∧
    (∀ (c : ConnState) (env : TransportEnv),
      (c.clientPresent && c.clientConnected) = true → env.disconnectRaises = true →
      (c.disconnect env).1 = PyResult.raised ∧
      (c.disconnect env).2.1 = { c with disconnectEventSet := true }) := by
  refine ⟨?_, ?_, ?_, ?_⟩
  · intro c env hg
    simp [ConnState.disconnect, hg]
  · intro c env env2 hok
    cases hp : c.clientPresent <;> cases hcc : c.clientConnected <;>
        cases hd : env.disconnectRaises <;>
      simp_all [ConnState.disconnect]
  · intro c env hd
    cases hp : c.clientPresent <;> cases hcc : c.clientConnected <;>
      simp [ConnState.disconnect, hp, hcc, hd]
  · intro c env hg hd
    simp [ConnState.disconnect, hg, hd]

/-- Witness for the amended C7: a live connection with a cooperating
transport is fully cleared, while a raising transport leaves the client
reference set. -/
theorem c7_disconnect_behaviour_witness :
    (connSample.disconnect envHappy).1 = PyResult.ok () ∧
    (connSample.disconnect envHappy).2.1.clientPresent = false ∧
    (connSample.disconnect envDisconnectRaises).1 = PyResult.raised :=
  ⟨(c7_disconnect_behaviour.2.2.1 connSample envHappy (by decide)).1,
   (c7_disconnect_behaviour.2.2.1 connSample envHappy (by decide)).2.1,
   (c7_disconnect_behaviour.2.2.2 connSample envDisconnectRaises (by decide)
      (by decide)).1⟩

/-! ## Claim C8: connect converts failures to a boolean -/

/-- C8 fails on the code: a BleakError on the first privileged read whose
message is not an authorization error is swallowed by the inner handler
(src/hue_ble.py:120-123 re-raises nothing), so `connect` returns `true`. -/
theorem c8_counterexample : ¬ claimC8 := by
  intro h
  exact absurd
    (h (ConnState.fresh addrSample) envStrayReadError (by decide)
      (Or.inr (Or.inl (by decide))))
    (by decide)

/-- C8 amended: `connect` returns `false` on timeout, on a transport error
or a false connected report during establishment, on a non-BleakError
failure of the first privileged read, and on a failed pairing retry — but a
non-authorization BleakError on that first read is swallowed and `connect`
returns `true`.  It never raises (it is total into a boolean result). -/
theorem c8_connect_failures :
    (∀ (c : ConnState) (env : TransportEnv), c.is_connected = false →
      env.connectOutcome ≠ ConnectOutcome.ok → (c.connect env).1 = false) ∧
    (∀ (c : ConnState) (env : TransportEnv), c.is_connected = false →
      env.firstReadOutcome = ReadOutcome.otherException → (c.connect env).1 = false) ∧
    (∀ (c : ConnState) (env : TransportEnv), c.is_connected = false →
      env.firstReadOutcome = ReadOutcome.authError → env.pairRaises = true →
      (c.connect env).1 = false) ∧
    (∀ (c : ConnState) (env : TransportEnv), c.is_connected = false →
      env.connectOutcome = ConnectOutcome.ok →
      env.firstReadOutcome = ReadOutcome.otherBleakError →
      (c.connect env).1 = true) := by
  refine ⟨?_, ?_, ?_, ?_⟩
  · intro c env hc hco
    cases h : env.connectOutcome <;>
      simp [ConnState.connect, hc, h] at hco ⊢
  · intro c env hc hro
    cases h : env.connectOutcome <;>
      simp [ConnState.connect, hc, h, hro]
  · intro c env hc hro hpr
    cases h : env.connectOutcome <;>
      simp [ConnState.connect, hc, h, hro, hpr]
  · intro c env hc hco hro
    simp [ConnState.connect, hc, hco, hro]

/-- Witness for the amended C8: from scratch, a timed-out connect yields
`false` and a stray read error still yields `true`. -/
theorem c8_connect_failures_witness :
    ((ConnState.fresh addrSample).connect
      { envHappy with connectOutcome := .timeout }).1 = false ∧
    ((ConnState.fresh addrSample).connect envStrayReadError).1 = true :=
  ⟨c8_connect_failures.1 (ConnState.fresh addrSample)
      { envHappy with connectOutcome := .timeout } (by decide) (by decide),
   c8_connect_failures.2.2.2 (ConnState.fresh addrSample) envStrayReadError
      (by decide) (by decide) (by decide)⟩

/-! ## Claim C6: the ping response -/

/-- C6 fails on the code: with `self.connection = None`, the expression
`self.connection and self.connection.is_connected` (src/daemon.py:38) is
`None`, so a fresh daemon answers `{ok:true, connected:null}`, not a
boolean `false`. -/
theorem c6_counterexample : ¬ claimC6 := by
  intro h
  exact absurd (h.2 envDefault none none) (by decide)

/-- C6 amended: ping always answers ok; when a connection object exists the
`connected` field is the transport-checked boolean, but on a daemon whose
`connection` is `None` (fresh daemon included) the field is JSON `null`. -/
theorem c6_ping_connected :
    ∀ (st : DaemonState) (env : DaemonEnv) (req : Request),
      req.cmd = some cmdPing →
      (handleClient st env req).1.ok = true ∧
      (handleClient st env req).2.1 = st ∧
      (st.connection = none →
        (handleClient st env req).1.connected = some JVal.null) ∧
      (∀ cs, st.connection = some cs →
        (handleClient st env req).1.connected = some (JVal.bool cs.is_connected)) := by
  intro st env req hcmd
  obtain ⟨cmd, a, l⟩ := req
  simp only at hcmd
  subst hcmd
  cases hc : st.connection <;>
    simp_all [handleClient]

/-- Witness for the amended C6: the ping of a fresh daemon is ok and carries
`connected: null`. -/
theorem c6_ping_connected_witness :
    (handleClient daemonFresh envDefault ⟨some cmdPing, none, none⟩).1.ok = true ∧
    (handleClient daemonFresh envDefault ⟨some cmdPing, none, none⟩).1.connected =
      some JVal.null :=
  ⟨(c6_ping_connected daemonFresh envDefault ⟨some cmdPing, none, none⟩ rfl).1,
   (c6_ping_connected daemonFresh envDefault ⟨some cmdPing, none, none⟩ rfl).2.2.1 rfl⟩

/-! ## Claim C2: implicit connect before stateful commands -/

/-- C2 fails on the code: a fresh daemon with a known last address answers
`on` with the not-connected failure without ever attempting a connect
(src/daemon.py:71-76 reads no address and calls no connect). -/
theorem c2_counterexample : ¬ claimC2 := by
  intro h
  exact absurd
    (h daemonFresh envKnownAddr ⟨some cmdOn, none, none⟩ (Or.inl rfl) (by decide)
      (Or.inr (by decide)))
    (by decide)

/-- C2 amended: the Command Router performs no implicit connect at all for
`on`, `off`, `brightness` and `status`: whenever the link is not connected
these commands answer `{ok:false, error:"Not connected"}` directly, leave
the daemon state unchanged, and attempt no transport connect, whether or
not an identity is known.  (The implicit connect-then-act pattern lives in
the outer CLI and HTTP clients, not in the daemon.) -/
theorem c2_not_connected_fails_fast :
    ∀ (st : DaemonState) (env : DaemonEnv) (req : Request),
      (req.cmd = some cmdOn ∨ req.cmd = some cmdOff ∨
        req.cmd = some cmdBrightness ∨ req.cmd = some cmdStatus) →
      stateNotConnected st = true →
      (handleClient st env req).1 = notConnectedResponse ∧
      hasConnectAttempt (handleClient st env req).2.2 = false ∧
      (handleClient st env req).2.1 = st := by
  intro st env req hcmd hnc
  obtain ⟨cmd, a, l⟩ := req
  simp only at hcmd
  rcases hcmd with h | h | h | h <;> subst h <;>
    cases hc : st.connection <;>
      simp_all [handleClient, stateNotConnected, hasConnectAttempt, respondEvs,
        cmdPing, cmdConnect, cmdDisconnect, cmdOn, cmdOff, cmdBrightness,
        cmdStatus, cmdShutdown]

/-- Witness for the amended C2: `on` on a fresh daemon with a known last
address. -/
theorem c2_not_connected_fails_fast_witness :
    (handleClient daemonFresh envKnownAddr ⟨some cmdOn, none, none⟩).1 =
        notConnectedResponse ∧
    hasConnectAttempt
        (handleClient daemonFresh envKnownAddr ⟨some cmdOn, none, none⟩).2.2 = false :=
  ⟨(c2_not_connected_fails_fast daemonFresh envKnownAddr ⟨some cmdOn, none, none⟩
      (Or.inl rfl) (by decide)).1,
   (c2_not_connected_fails_fast daemonFresh envKnownAddr ⟨some cmdOn, none, none⟩
      (Or.inl rfl) (by decide)).2.1⟩

/-! ## Claim C3: out-of-range brightness -/

/-- C3 fails on the code: with a connected link, `brightness{level:150}`
is clamped by `set_brightness` (src/hue_ble.py:182) and forwarded — the
response is `{ok:true}`, not a rejection. -/
theorem c3_counterexample : ¬ claimC3 := by
  intro h
  exact absurd
    ((h ⟨some connSample⟩ envDefault none 150 (Or.inr (by norm_num))).1)
    (by decide)

/-- C3 amended: while connected, any requested level — out of range or not
— is clamped into 1..100 and written to the transport; the response is
`{ok:true}` whenever the write succeeds.  In particular level 150 is
clamped to 100 and written as wire byte 254. -/
theorem c3_brightness_clamped :
    (∀ (st : DaemonState) (env : DaemonEnv) (a : Option String) (level : ℤ)
      (c : ConnState), st.connection = some c → c.is_connected = true →
      (handleClient st env ⟨some cmdBrightness, a, some level⟩).1 =
        { ok := !env.transport.writeRaises } ∧
      (handleClient st env ⟨some cmdBrightness, a, some level⟩).2.2 =
        [Ev.lockAcquire,
         Ev.wireWrite CharId.brightness (wireValue (clampPercent level)),
         Ev.lockRelease] ++ respondEvs) ∧
    wireValue (clampPercent 150) = 254 := by
  constructor
  · intro st env a level c hconn hic
    cases st
    simp_all [handleClient, ConnState.set_brightness, respondEvs,
      cmdPing, cmdConnect, cmdDisconnect, cmdOn, cmdOff, cmdBrightness,
      cmdStatus, cmdShutdown]
  · have h1 : clampPercent 150 = 100 := by decide
    rw [h1, wireValue_eq_div 100 (by norm_num)]
    decide

/-- Witness for the amended C3 at level 150 on a connected daemon. -/
theorem c3_brightness_clamped_witness :
    (handleClient ⟨some connSample⟩ envDefault ⟨some cmdBrightness, none, some 150⟩).1 =
        { ok := !envDefault.transport.writeRaises } ∧
    (handleClient ⟨some connSample⟩ envDefault
        ⟨some cmdBrightness, none, some 150⟩).2.2 =
      [Ev.lockAcquire,
       Ev.wireWrite CharId.brightness (wireValue (clampPercent 150)),
       Ev.lockRelease] ++ respondEvs :=
  ⟨(c3_brightness_clamped.1 ⟨some connSample⟩ envDefault none 150 connSample
      rfl (by decide)).1,
   (c3_brightness_clamped.1 ⟨some connSample⟩ envDefault none 150 connSample
      rfl (by decide)).2⟩

/-! ## Claim C9: shutdown responds before teardown -/

/-- C9: every shutdown request writes and flushes the `{ok:true, message}`
response before any teardown step is initiated, whatever the daemon state
and transport behaviour. -/
theorem c9_shutdown_responds_first :
    ∀ (st : DaemonState) (env : DaemonEnv) (req : Request),
      req.cmd = some cmdShutdown →
      (handleClient st env req).1 = { ok := true, message := some msgShuttingDown } ∧
      noTeardownBeforeFlush (handleClient st env req).2.2 = true ∧
      Ev.respFlush ∈ (handleClient st env req).2.2 := by
  intro st env req hcmd
  obtain ⟨cmd, a, l⟩ := req
  simp only at hcmd
  subst hcmd
  refine ⟨by simp [handleClient, cmdPing, cmdConnect, cmdDisconnect, cmdOn,
      cmdOff, cmdBrightness, cmdStatus, cmdShutdown], ?_, ?_⟩ <;>
    simp [handleClient, noTeardownBeforeFlush, Ev.isTeardown,
      cmdPing, cmdConnect, cmdDisconnect, cmdOn, cmdOff, cmdBrightness,
      cmdStatus, cmdShutdown]

/-- Witness for C9 on a fresh daemon. -/
theorem c9_shutdown_responds_first_witness :
    noTeardownBeforeFlush
      (handleClient daemonFresh envDefault ⟨some cmdShutdown, none, none⟩).2.2 = true :=
  (c9_shutdown_responds_first daemonFresh envDefault ⟨some cmdShutdown, none, none⟩
    rfl).2.1

/-! ## Claim C10: the default brightness level -/

/-- C10: a brightness request without a `level` field is not rejected; it
behaves exactly as `brightness{level:50}` (src/daemon.py:86 —
`request.get("level", 50)`). -/
theorem c10_brightness_default_level :
    ∀ (st : DaemonState) (env : DaemonEnv) (a : Option String),
      handleClient st env ⟨some cmdBrightness, a, none⟩ =
        handleClient st env ⟨some cmdBrightness, a, some 50⟩ := by
  intro st env a
  rfl

end HueLights
